import Mathlib

/-
Verification of the SimpleLogger header-only logging interface
(namespace iif_sadaf::talk::simple_logger).

The whole library is one header: an enum LogLevel, an abstract class
SimpleLogger with non-virtual convenience wrappers info/debug/trace and an
overridable is_active defaulting to true, a stateless NullLogger, a
function null_logger returning one shared NullLogger instance, and
normalize mapping a possibly-null pointer to a guaranteed non-null one.

Embedding choices:
- An implementer of the abstract class is a structure of functions over an
  implementer-chosen state type.  Observable output of a log call is a list
  of emitted strings.
- The convenience wrappers are plain functions on that structure (not
  fields), mirroring that they are non-virtual in the C++: no implementer
  can replace them.
- Pointer identity is modelled by a LoggerRef type with one distinguished
  value for the shared NullLogger instance and external values for
  application-owned loggers; the C++ null pointer is Option.none.
-/

namespace simple_logger

/-- The three severity levels, in C++ declaration order. -/
inductive LogLevel where
  | Info
  | Debug
  | Trace
deriving DecidableEq, Fintype, Repr

/-- The underlying integral value the C++ enum assigns to each enumerator
(declaration order starting at 0). -/
def LogLevel.toNat : LogLevel → Nat
  | .Info => 0
  | .Debug => 1
  | .Trace => 2

/-- The C++ relational comparison on the enum class: comparison of the
underlying values.  `LogLevel.lt a b` is `a < b` in C++. -/
def LogLevel.lt (a b : LogLevel) : Bool :=
  a.toNat < b.toNat

/-- The C++ relational comparison `a <= b` on the enum class. -/
def LogLevel.le (a b : LogLevel) : Bool :=
  a.toNat ≤ b.toNat

/-- An implementer of the abstract class SimpleLogger, over its own state
type.  The three pure virtual operations and the overridable `is_active`
are fields; `is_active` carries the base-class default body
`return true`.  A `log` call returns the successor state and the list of
observable outputs it emits. -/
structure SimpleLogger (σ : Type) where
  get_log_level : σ → LogLevel
  set_log_level : LogLevel → σ → σ
  log : LogLevel → String → σ → σ × List String
  is_active : σ → Bool := fun _ => true

/-- Non-virtual wrapper: `void info(m) \x7b log(LogLevel::Info, m); \x7d`. -/
def SimpleLogger.info {σ : Type} (L : SimpleLogger σ) (message : String) (s : σ) :
    σ × List String :=
  L.log LogLevel.Info message s

/-- Non-virtual wrapper: `void debug(m) \x7b log(LogLevel::Debug, m); \x7d`. -/
def SimpleLogger.debug {σ : Type} (L : SimpleLogger σ) (message : String) (s : σ) :
    σ × List String :=
  L.log LogLevel.Debug message s

/-- Non-virtual wrapper: `void trace(m) \x7b log(LogLevel::Trace, m); \x7d`. -/
def SimpleLogger.trace {σ : Type} (L : SimpleLogger σ) (message : String) (s : σ) :
    σ × List String :=
  L.log LogLevel.Trace message s

/-- The NullLogger: no data members (state is Unit), `get_log_level`
returns Info, `set_log_level` and `log` are no-ops, `is_active` returns
false. -/
def NullLogger : SimpleLogger Unit where
  get_log_level := fun _ => LogLevel.Info
  set_log_level := fun _ s => s
  log := fun _ _ s => (s, [])
  is_active := fun _ => false

/-- A logger pointer value: either the address of the shared static
NullLogger instance inside null_logger, or the address of some
application-owned logger. -/
inductive LoggerRef where
  | nullLoggerInstance
  | external (id : Nat)
deriving DecidableEq, Repr

/-- `null_logger()`: returns the address of the function-local static
NullLogger instance, hence the same reference on every call.  The Unit
argument stands for one call. -/
def null_logger (_call : Unit) : LoggerRef :=
  LoggerRef.nullLoggerInstance

/-- `normalize(logger)`: `return logger ? logger : null_logger();`.  The
C++ null pointer is `none`. -/
def normalize (logger : Option LoggerRef) : LoggerRef :=
  match logger with
  | some p => p
  | none => null_logger ()

/-- One call an application can make on a logger. -/
inductive Op where
  | getLevel
  | setLevel (level : LogLevel)
  | logMsg (level : LogLevel) (message : String)
  | infoMsg (message : String)
  | debugMsg (message : String)
  | traceMsg (message : String)
  | activeQuery
deriving DecidableEq, Repr

/-- Run one operation on an implementer, returning the successor state and
the observable output the call emits. -/
def runOp {σ : Type} (L : SimpleLogger σ) (op : Op) (s : σ) : σ × List String :=
  match op with
  | .getLevel => (s, [])
  | .setLevel level => (L.set_log_level level s, [])
  | .logMsg level message => L.log level message s
  | .infoMsg message => L.info message s
  | .debugMsg message => L.debug message s
  | .traceMsg message => L.trace message s
  | .activeQuery => (s, [])

/-- Run a sequence of operations, concatenating the observable outputs in
call order. -/
def runOps {σ : Type} (L : SimpleLogger σ) (ops : List Op) (s : σ) : σ × List String :=
  match ops with
  | [] => (s, [])
  | op :: rest =>
      let step := runOp L op s
      let next := runOps L rest step.1
      (next.1, step.2 ++ next.2)

/-- Modelled from the spec: the application-side threshold-filtering
implementer of the end-to-end scenario, whose `log(level, m)` produces
observable output exactly when `level >= current_level` under the declared
enum comparison; its state is the current threshold level. -/
def thresholdGE : SimpleLogger LogLevel where
  get_log_level := fun s => s
  set_log_level := fun level _ => level
  log := fun level message s =>
    (s, if LogLevel.le s level then [message] else [])

/-- Modelled from the spec: the same threshold-filtering implementer with
the inclusive-downward filter `level <= current_level`, the reading under
which a threshold means "log this and everything less verbose". -/
def thresholdLE : SimpleLogger LogLevel where
  get_log_level := fun s => s
  set_log_level := fun level _ => level
  log := fun level message s =>
    (s, if LogLevel.le level s then [message] else [])

/-- The call sequence of the end-to-end scenario: set the threshold to
Debug, then log Info "a", Debug "b", Trace "c". -/
def scenarioOps : List Op :=
  [Op.setLevel LogLevel.Debug, Op.logMsg LogLevel.Info "a",
   Op.logMsg LogLevel.Debug "b", Op.logMsg LogLevel.Trace "c"]

/-- Helper: every operation on the NullLogger leaves the (empty) state
unchanged and emits nothing. -/
theorem nullLogger_runOp_eq (op : Op) (s : Unit) : runOp NullLogger op s = ((), []) := by
  cases op <;> rfl

/-- Helper: every sequence of operations on the NullLogger emits nothing
and ends in the (unique) state. -/
theorem nullLogger_runOps_eq (ops : List Op) (s : Unit) :
    runOps NullLogger ops s = ((), []) := by
  induction ops generalizing s with
  | nil => rfl
  | cons op rest ih =>
      simp [runOps, nullLogger_runOp_eq, ih]

end simple_logger

namespace simple_logger

/-- C1 counterexample: the implementer that filters by
`level >= current_level`, after `set_log_level(Debug)`, emits output for
"b" and "c" — not for "a" and "b" as the claim states: under the declared
ordering, `Info >= Debug` is false and `Trace >= Debug` is true. -/
theorem C1_ge_filter_counterexample :
    (runOps thresholdGE scenarioOps LogLevel.Info).2 = ["b", "c"] ∧
    (runOps thresholdGE scenarioOps LogLevel.Info).2 ≠ ["a", "b"] := by
  constructor
  · rfl
  · decide

/-- C1 (amended): a threshold-filtering implementer that includes Info and
Debug but excludes Trace at threshold Debug filters by
`level <= current_level`; with that filter, after `set_log_level(Debug)`,
the sequence log(Info,"a"), log(Debug,"b"), log(Trace,"c") produces output
exactly for "a" and "b", in that order, and a level passes the Debug
threshold exactly when it is Info or Debug. -/
theorem C1_debug_threshold_scenario :
    (runOps thresholdLE scenarioOps LogLevel.Info).2 = ["a", "b"] ∧
    (∀ level : LogLevel,
      LogLevel.le level LogLevel.Debug = true ↔
        (level = LogLevel.Info ∨ level = LogLevel.Debug)) := by
  constructor
  · rfl
  · decide

/-- C2: for every implementer and every message, info(m) is the very call
log(Info, m), debug(m) is log(Debug, m) and trace(m) is log(Trace, m);
the wrappers are plain functions outside the structure of overridable
operations, so an implementer can supply only `log`, never the
forwarding. -/
theorem C2_convenience_forwarding {σ : Type} (L : SimpleLogger σ) (m : String) (s : σ) :
    L.info m s = L.log LogLevel.Info m s ∧
    L.debug m s = L.log LogLevel.Debug m s ∧
    L.trace m s = L.log LogLevel.Trace m s :=
  ⟨rfl, rfl, rfl⟩

/-- C3: normalize is total by construction (its result type has no absent
value); on absent input it returns the shared NullLogger reference, whose
is_active is false and whose log calls emit nothing for any level, message
and prior state. -/
theorem C3_normalize_never_absent :
    normalize none = LoggerRef.nullLoggerInstance ∧
    NullLogger.is_active () = false ∧
    (∀ (level : LogLevel) (message : String) (s : Unit),
      NullLogger.log level message s = (s, [])) :=
  ⟨rfl, rfl, fun _ _ _ => rfl⟩

/-- C4: normalize returns a present input unchanged, with the same
identity. -/
theorem C4_normalize_present_identity (p : LoggerRef) : normalize (some p) = p :=
  rfl

/-- C5: after any sequence of operations on the NullLogger, including any
set_log_level calls, get_log_level still returns Info: the set argument is
never retained. -/
theorem C5_null_level_always_info (ops : List Op) (s : Unit) :
    NullLogger.get_log_level (runOps NullLogger ops s).1 = LogLevel.Info :=
  rfl

/-- C6: any sequence of NullLogger operations, with any arguments, leaves
the state unchanged and emits no observable output; every operation is a
total function, so no call can fail. -/
theorem C6_null_sequence_no_effect (ops : List Op) (s : Unit) :
    runOps NullLogger ops s = (s, []) :=
  nullLogger_runOps_eq ops s

/-- C7: an implementer built without supplying is_active gets the base
default, which returns true on every state; NullLogger overrides it to
return false. -/
theorem C7_is_active_default_true {σ : Type}
    (g : σ → LogLevel) (sl : LogLevel → σ → σ)
    (lg : LogLevel → String → σ → σ × List String) (s : σ) :
    ({ get_log_level := g, set_log_level := sl, log := lg } : SimpleLogger σ).is_active s
        = true ∧
    NullLogger.is_active () = false :=
  ⟨rfl, rfl⟩

/-- C8: LogLevel has exactly the three constants Info, Debug, Trace, and
the comparison of the declared underlying values is a strict total order
with Info < Debug < Trace. -/
theorem C8_loglevel_total_order :
    (∀ l : LogLevel, l = LogLevel.Info ∨ l = LogLevel.Debug ∨ l = LogLevel.Trace) ∧
    LogLevel.lt LogLevel.Info LogLevel.Debug = true ∧
    LogLevel.lt LogLevel.Debug LogLevel.Trace = true ∧
    LogLevel.lt LogLevel.Info LogLevel.Trace = true ∧
    (∀ a : LogLevel, LogLevel.lt a a = false) ∧
    (∀ a b : LogLevel, LogLevel.lt a b = true ∨ a = b ∨ LogLevel.lt b a = true) ∧
    (∀ a b c : LogLevel,
      LogLevel.lt a b = false ∨ LogLevel.lt b c = false ∨ LogLevel.lt a c = true) := by
  decide

/-- C9: any two calls to null_logger return the same reference, the one
shared static NullLogger instance. -/
theorem C9_null_logger_singleton (u v : Unit) :
    null_logger u = null_logger v ∧ null_logger u = LoggerRef.nullLoggerInstance :=
  ⟨rfl, rfl⟩

/-- C10: normalize is idempotent: normalizing the (always present) result
of normalize returns that result unchanged. -/
theorem C10_normalize_idempotent (p : Option LoggerRef) :
    normalize (some (normalize p)) = normalize p := by
  cases p <;> rfl

end simple_logger
